import Mathlib

/-!
Shallow embedding of v2/pkg/options/windows/windows.go: the option records,
the enumerated constants (Theme, BackdropType, DLL search flags), the RGB
colour packing helper and the default message catalogue, together with
proofs of the specification claims about them.
-/

namespace Windows

/-- Go source: type Theme int. -/
abbrev Theme := Int

/-- SystemDefault follows the system theme. -/
def SystemDefault : Theme := 0

/-- Dark mode. -/
def Dark : Theme := 1

/-- Light mode. -/
def Light : Theme := 2

/-- Go source: type BackdropType int32. -/
abbrev BackdropType := Int

def Auto : BackdropType := 0

def None : BackdropType := 1

def Mica : BackdropType := 2

def Acrylic : BackdropType := 3

def Tabbed : BackdropType := 4

/-- Default is 0: no change to the default Windows DLL search behavior. -/
def DLLSearchDefault : Nat := 0

/-- Value of windows.DONT_RESOLVE_DLL_REFERENCES, as documented in the source. -/
def DLLSearchDontResolveDllReferences : Nat := 0x1

def DLLSearchAsDataFile : Nat := 0x2

def DLLSearchWithAlteredPath : Nat := 0x8

def DLLSearchIgnoreCodeAuthzLevel : Nat := 0x10

def DLLSearchAsImageResource : Nat := 0x20

def DLLSearchAsDataFileExclusive : Nat := 0x40

def DLLSearchRequireSignedTarget : Nat := 0x80

def DLLSearchDllLoadDir : Nat := 0x100

def DLLSearchApplicationDir : Nat := 0x200

def DLLSearchUserDirs : Nat := 0x400

def DLLSearchSystem32 : Nat := 0x800

def DLLSearchDefaultDirs : Nat := 0x1000

def DLLSearchSafeCurrentDirs : Nat := 0x2000

def DLLSearchSystem32NoForwarder : Nat := 0x4000

def DLLSearchOsIntegrityContinuity : Nat := 0x8000

/-- The fifteen non-default DLL search flags, in source order. -/
def dllFlag : Fin 15 → Nat :=
  ![DLLSearchDontResolveDllReferences, DLLSearchAsDataFile, DLLSearchWithAlteredPath,
    DLLSearchIgnoreCodeAuthzLevel, DLLSearchAsImageResource, DLLSearchAsDataFileExclusive,
    DLLSearchRequireSignedTarget, DLLSearchDllLoadDir, DLLSearchApplicationDir,
    DLLSearchUserDirs, DLLSearchSystem32, DLLSearchDefaultDirs, DLLSearchSafeCurrentDirs,
    DLLSearchSystem32NoForwarder, DLLSearchOsIntegrityContinuity]

/-- The bit position of each non-default DLL search flag. -/
def dllFlagBit : Fin 15 → Nat :=
  ![0, 1, 3, 4, 5, 6, 7, 8, 9, 10, 11, 12, 13, 14, 15]

/-- Bitwise OR of the subset of DLL search flags selected by bs, as the
Options field DLLSearchPaths is documented to be built. -/
def dllCombine (bs : Fin 15 → Bool) : Nat :=
  (List.finRange 15).foldr (fun i acc => (if bs i then dllFlag i else 0) ||| acc) 0

/-- Go source: struct Messages, the customisable user messages. -/
structure Messages where
  InstallationRequired : String
  UpdateRequired : String
  MissingRequirements : String
  Webview2NotInstalled : String
  Error : String
  FailedToInstall : String
  DownloadPage : String
  PressOKToInstall : String
  ContactAdmin : String
  InvalidFixedWebview2 : String
  WebView2ProcessCrash : String
deriving DecidableEq

/-- The eleven fields of a Messages record, in declaration order. -/
def Messages.fieldList (m : Messages) : List String :=
  [m.InstallationRequired, m.UpdateRequired, m.MissingRequirements, m.Webview2NotInstalled,
   m.Error, m.FailedToInstall, m.DownloadPage, m.PressOKToInstall, m.ContactAdmin,
   m.InvalidFixedWebview2, m.WebView2ProcessCrash]

/-- Go source: the record built by func DefaultMessages() *Messages. -/
def DefaultMessages : Messages where
  InstallationRequired := "The WebView2 runtime is required. Press Ok to download and install. Note: The installer will download silently so please wait."
  UpdateRequired := "The WebView2 runtime needs updating. Press Ok to download and install. Note: The installer will download silently so please wait."
  MissingRequirements := "Missing Requirements"
  Webview2NotInstalled := "WebView2 runtime not installed"
  Error := "Error"
  FailedToInstall := "The runtime failed to install correctly. Please try again."
  DownloadPage := "This application requires the WebView2 runtime. Press OK to open the download page. Minimum version required: "
  PressOKToInstall := "Press Ok to install."
  ContactAdmin := "The WebView2 runtime is required to run this application. Please contact your system administrator."
  InvalidFixedWebview2 := "The WebView2 runtime is manually specified, but It is not valid. Check minimum required version and webview2 path."
  WebView2ProcessCrash := "The WebView2 process crashed and the application needs to be restarted."

/-- Heap model of func DefaultMessages: it allocates a fresh Messages cell
(the Go expression takes the address of a new composite literal) and returns
a pointer to it, touching no existing cell. The heap is the list of live
Messages cells; a pointer is an index into it. -/
def allocDefaultMessages (heap : List Messages) : Nat × List Messages :=
  (heap.length, heap ++ [DefaultMessages])

/-- Two's complement reading of a 32-bit pattern, the value of a Go int32. -/
def int32OfBits (bits : Nat) : Int :=
  if bits % 4294967296 < 2147483648 then ((bits % 4294967296 : Nat) : Int)
  else ((bits % 4294967296 : Nat) : Int) - 4294967296

/-- Go source: func RGB(r, g, b uint8) int32. Each step mirrors one
assignment: col starts as int32(b); then col = col shifted left 8 (a Go
int32 shift wraps the bit pattern to 32 bits) ORed with int32(g); then the
same with int32(r). Arguments are taken mod 256 to model the uint8 domain. -/
def RGB (r g b : Nat) : Int :=
  let col := b % 256
  let col := (col <<< 8) % 4294967296 ||| g % 256
  let col := (col <<< 8) % 4294967296 ||| r % 256
  int32OfBits col

/-- Go source: struct ThemeSettings, optional colours as int32 values. -/
structure ThemeSettings where
  DarkModeTitleBar : Int
  DarkModeTitleBarInactive : Int
  DarkModeTitleText : Int
  DarkModeTitleTextInactive : Int
  DarkModeBorder : Int
  DarkModeBorderInactive : Int
  LightModeTitleBar : Int
  LightModeTitleBarInactive : Int
  LightModeTitleText : Int
  LightModeTitleTextInactive : Int
  LightModeBorder : Int
  LightModeBorderInactive : Int

/-- Go source: struct Options, the Windows specific options. Pointers become
Option, func() callbacks become Option (Unit → Unit), uint16 and uint32
fields are Nat values. -/
structure Options where
  WebviewIsTransparent : Bool
  WindowIsTranslucent : Bool
  DisableWindowIcon : Bool
  IsZoomControlEnabled : Bool
  ZoomFactor : Float
  DisablePinchZoom : Bool
  DisableFramelessWindowDecorations : Bool
  WebviewUserDataPath : String
  WebviewBrowserPath : String
  Theme : Theme
  CustomTheme : Option ThemeSettings
  BackdropType : BackdropType
  Messages : Option Messages
  ResizeDebounceMS : Nat
  OnSuspend : Option (Unit → Unit)
  OnResume : Option (Unit → Unit)
  WebviewGpuIsDisabled : Bool
  WebviewDisableRendererCodeIntegrity : Bool
  EnableSwipeGestures : Bool
  WindowClassName : String
  DLLSearchPaths : Nat

theorem and255_eq_mod (x : Nat) : x &&& 255 = x % 256 := by
  have h := Nat.and_pow_two_sub_one_eq_mod x 8
  norm_num at h
  exact h

theorem RGB_closed (r g b : Nat) (hr : r < 256) (hg : g < 256) (hb : b < 256) :
    RGB r g b = ((b * 65536 + g * 256 + r : Nat) : Int) := by
  have hbm : b % 256 = b := by omega
  have hgm : g % 256 = g := by omega
  have hrm : r % 256 = r := by omega
  have s1 : (b <<< 8) % 4294967296 = 2 ^ 8 * b := by rw [Nat.shiftLeft_eq]; omega
  have s2 : 2 ^ 8 * b ||| g = 2 ^ 8 * b + g := (Nat.mul_add_lt_is_or (by omega) b).symm
  have s3 : ((2 ^ 8 * b + g) <<< 8) % 4294967296 = 2 ^ 8 * (2 ^ 8 * b + g) := by
    rw [Nat.shiftLeft_eq]; omega
  have s4 : 2 ^ 8 * (2 ^ 8 * b + g) ||| r = 2 ^ 8 * (2 ^ 8 * b + g) + r :=
    (Nat.mul_add_lt_is_or (by omega) _).symm
  show int32OfBits (((((b % 256) <<< 8) % 4294967296 ||| g % 256) <<< 8) % 4294967296
      ||| r % 256) = _
  rw [hbm, hgm, hrm, s1, s2, s3, s4]
  have key : 2 ^ 8 * (2 ^ 8 * b + g) + r = b * 65536 + g * 256 + r := by omega
  rw [key]
  unfold int32OfBits
  rw [Nat.mod_eq_of_lt (by omega), if_pos (by omega)]

/-- Claim C1: for all 8-bit inputs r, g, b the colour packer RGB returns the
32-bit integer (b shifted left 16) OR (g shifted left 8) OR r, laid out as
0x00BBGGRR; the high byte (bits 24 to 31) is zero and the result is
non-negative. -/
theorem RGB_packs_0x00BBGGRR (r g b : Nat) (hr : r < 256) (hg : g < 256) (hb : b < 256) :
    RGB r g b = ((b <<< 16 ||| g <<< 8 ||| r : Nat) : Int) ∧
    RGB r g b = ((b * 65536 + g * 256 + r : Nat) : Int) ∧
    0 ≤ RGB r g b ∧
    (RGB r g b).toNat < 16777216 ∧
    ∀ k, 24 ≤ k → (RGB r g b).toNat.testBit k = false := by
  have hc := RGB_closed r g b hr hg hb
  have hub : b <<< 16 ||| g <<< 8 ||| r = b * 65536 + g * 256 + r := by
    rw [Nat.shiftLeft_eq, Nat.shiftLeft_eq]
    have i1 : b * 2 ^ 16 ||| g * 2 ^ 8 = 2 ^ 16 * b + g * 2 ^ 8 := by
      rw [Nat.mul_comm b]
      exact (Nat.mul_add_lt_is_or (by omega) b).symm
    rw [i1]
    have i2 : 2 ^ 16 * b + g * 2 ^ 8 = 2 ^ 8 * (2 ^ 8 * b + g) := by ring
    rw [i2, (Nat.mul_add_lt_is_or (show r < 2 ^ 8 by omega) _).symm]
    omega
  have ht : (RGB r g b).toNat = b * 65536 + g * 256 + r := by rw [hc, Int.toNat_natCast]
  refine ⟨by rw [hc, hub], hc, by rw [hc]; exact Int.natCast_nonneg _, by rw [ht]; omega, ?_⟩
  intro k hk
  rw [ht]
  have hlt : b * 65536 + g * 256 + r < 2 ^ k :=
    lt_of_lt_of_le (show b * 65536 + g * 256 + r < 2 ^ 24 by omega)
      (Nat.pow_le_pow_right (by omega) hk)
  exact Nat.testBit_lt_two_pow hlt

/-- Witness for claim C1 at the four example inputs of the specification. -/
theorem RGB_packs_0x00BBGGRR_witness :
    RGB 255 0 0 = 0xFF ∧ RGB 0 255 0 = 0xFF00 ∧ RGB 0 0 255 = 0xFF0000 ∧
    RGB 16 32 48 = 0x302010 :=
  ⟨((RGB_packs_0x00BBGGRR 255 0 0 (by decide) (by decide) (by decide)).2.1).trans (by decide),
   ((RGB_packs_0x00BBGGRR 0 255 0 (by decide) (by decide) (by decide)).2.1).trans (by decide),
   ((RGB_packs_0x00BBGGRR 0 0 255 (by decide) (by decide) (by decide)).2.1).trans (by decide),
   ((RGB_packs_0x00BBGGRR 16 32 48 (by decide) (by decide) (by decide)).2.1).trans (by decide)⟩

/-- Claim C7: the three channels are recoverable from the packed value by
masking and shifting, RGB is injective on 8-bit triples, and every result
lies between 0 and 0xFFFFFF. -/
theorem RGB_invertible_injective (r g b r2 g2 b2 : Nat)
    (hr : r < 256) (hg : g < 256) (hb : b < 256)
    (hr2 : r2 < 256) (hg2 : g2 < 256) (hb2 : b2 < 256) :
    (RGB r g b).toNat &&& 0xFF = r ∧
    (RGB r g b).toNat >>> 8 &&& 0xFF = g ∧
    (RGB r g b).toNat >>> 16 &&& 0xFF = b ∧
    (RGB r g b = RGB r2 g2 b2 → r = r2 ∧ g = g2 ∧ b = b2) ∧
    0 ≤ RGB r g b ∧ RGB r g b ≤ 0xFFFFFF := by
  have hc := RGB_closed r g b hr hg hb
  have ht : (RGB r g b).toNat = b * 65536 + g * 256 + r := by rw [hc, Int.toNat_natCast]
  refine ⟨?_, ?_, ?_, ?_, ?_, ?_⟩
  · rw [ht, and255_eq_mod]; omega
  · rw [ht, Nat.shiftRight_eq_div_pow, and255_eq_mod]; omega
  · rw [ht, Nat.shiftRight_eq_div_pow, and255_eq_mod]; omega
  · intro h
    rw [hc, RGB_closed r2 g2 b2 hr2 hg2 hb2] at h
    have h2 : b * 65536 + g * 256 + r = b2 * 65536 + g2 * 256 + r2 := Nat.cast_inj.mp h
    exact ⟨by omega, by omega, by omega⟩
  · rw [hc]; exact Int.natCast_nonneg _
  · rw [hc]; omega

/-- Witness for claim C7 at the concrete triple (16, 32, 48). -/
theorem RGB_invertible_injective_witness :
    (RGB 16 32 48).toNat &&& 0xFF = 16 ∧
    (RGB 16 32 48).toNat >>> 8 &&& 0xFF = 32 ∧
    (RGB 16 32 48).toNat >>> 16 &&& 0xFF = 48 ∧
    (RGB 16 32 48 = RGB 16 32 48 → 16 = 16 ∧ 32 = 32 ∧ 48 = 48) ∧
    0 ≤ RGB 16 32 48 ∧ RGB 16 32 48 ≤ 0xFFFFFF :=
  RGB_invertible_injective 16 32 48 16 32 48 (by decide) (by decide) (by decide)
    (by decide) (by decide) (by decide)

theorem dllFlag_eq_two_pow : ∀ i : Fin 15, dllFlag i = 2 ^ dllFlagBit i := by decide

theorem dllFlagBit_inj : ∀ i j : Fin 15, dllFlagBit i = dllFlagBit j → i = j := by decide

theorem dllCombine_testBit_aux (bs : Fin 15 → Bool) (l : List (Fin 15)) (j : Fin 15) :
    (l.foldr (fun i acc => (if bs i then dllFlag i else 0) ||| acc) 0).testBit (dllFlagBit j)
      = (decide (j ∈ l) && bs j) := by
  induction l with
  | nil => simp
  | cons i l ih =>
    simp only [List.foldr_cons, Nat.testBit_lor, ih, List.mem_cons]
    by_cases hij : j = i
    · subst hij
      cases hbs : bs j
      · simp [hbs]
      · simp [hbs, dllFlag_eq_two_pow j, Nat.testBit_two_pow]
    · have hbit : dllFlagBit i ≠ dllFlagBit j := fun h => hij (dllFlagBit_inj j i h.symm)
      cases hbs : bs i
      · simp [hbs, hij]
      · simp [hbs, hij, dllFlag_eq_two_pow i, Nat.testBit_two_pow, hbit]

theorem dllCombine_testBit (bs : Fin 15 → Bool) (j : Fin 15) :
    (dllCombine bs).testBit (dllFlagBit j) = bs j := by
  have h := dllCombine_testBit_aux bs (List.finRange 15) j
  simpa [dllCombine, List.mem_finRange] using h

/-- Claim C2: all sixteen DLL search flag constants are pairwise distinct
32-bit values, each of the fifteen non-default flags is a distinct single
bit, and bitwise OR combination of flags is collision free: the OR of a
subset of flags uniquely determines that subset. -/
theorem dllSearchFlags_distinct_single_bits :
    (DLLSearchDefault :: List.ofFn dllFlag).Nodup ∧
    (∀ i : Fin 15, dllFlag i < 4294967296 ∧ dllFlag i = 2 ^ dllFlagBit i) ∧
    (∀ i j : Fin 15, i ≠ j → dllFlag i ≠ dllFlag j) ∧
    (∀ bs1 bs2 : Fin 15 → Bool, dllCombine bs1 = dllCombine bs2 → bs1 = bs2) := by
  refine ⟨by decide, by decide, by decide, ?_⟩
  intro bs1 bs2 h
  funext j
  have h1 := dllCombine_testBit bs1 j
  have h2 := dllCombine_testBit bs2 j
  rw [h] at h1
  rw [h1] at h2
  exact h2

/-- Claim C3: the default message catalogue has exactly eleven string
fields, each equal to its fixed default English text and none empty. -/
theorem defaultMessages_eleven_nonempty :
    DefaultMessages.fieldList.length = 11 ∧
    DefaultMessages.fieldList =
      ["The WebView2 runtime is required. Press Ok to download and install. Note: The installer will download silently so please wait.",
       "The WebView2 runtime needs updating. Press Ok to download and install. Note: The installer will download silently so please wait.",
       "Missing Requirements",
       "WebView2 runtime not installed",
       "Error",
       "The runtime failed to install correctly. Please try again.",
       "This application requires the WebView2 runtime. Press OK to open the download page. Minimum version required: ",
       "Press Ok to install.",
       "The WebView2 runtime is required to run this application. Please contact your system administrator.",
       "The WebView2 runtime is manually specified, but It is not valid. Check minimum required version and webview2 path.",
       "The WebView2 process crashed and the application needs to be restarted."] ∧
    ∀ s ∈ DefaultMessages.fieldList, s ≠ "" := by
  refine ⟨rfl, rfl, ?_⟩
  decide

/-- Claim C4: the theme enumeration has three pairwise distinct values 0, 1,
2 and the backdrop enumeration has five pairwise distinct values 0 to 4. -/
theorem theme_backdrop_enum_values :
    SystemDefault = 0 ∧ Dark = 1 ∧ Light = 2 ∧
    [SystemDefault, Dark, Light].Nodup ∧
    Auto = 0 ∧ None = 1 ∧ Mica = 2 ∧ Acrylic = 3 ∧ Tabbed = 4 ∧
    [Auto, None, Mica, Acrylic, Tabbed].Nodup := by
  refine ⟨rfl, rfl, rfl, by decide, rfl, rfl, rfl, rfl, rfl, by decide⟩

/-- Claim C5: nothing in this source validates inputs or signals an error:
RGB is total on its domain with no failure branch, DefaultMessages always
returns a catalogue, and an Options record accepts any theme, backdrop,
debounce and DLL search values as given, never rejecting them. -/
theorem no_validation_no_error :
    (∀ r g b : Nat, ∃ c : Int, RGB r g b = c) ∧
    (∃ m : Messages, DefaultMessages = m) ∧
    (∀ (t : Theme) (bd : BackdropType) (fl : Nat) (n : Nat),
      ∃ o : Options, o.Theme = t ∧ o.BackdropType = bd ∧ o.DLLSearchPaths = fl ∧
        o.ResizeDebounceMS = n) :=
  ⟨fun r g b => ⟨RGB r g b, rfl⟩, ⟨DefaultMessages, rfl⟩, fun t bd fl n =>
    ⟨{ WebviewIsTransparent := false
       WindowIsTranslucent := false
       DisableWindowIcon := false
       IsZoomControlEnabled := false
       ZoomFactor := 0
       DisablePinchZoom := false
       DisableFramelessWindowDecorations := false
       WebviewUserDataPath := ""
       WebviewBrowserPath := ""
       Theme := t
       CustomTheme := none
       BackdropType := bd
       Messages := none
       ResizeDebounceMS := n
       OnSuspend := none
       OnResume := none
       WebviewGpuIsDisabled := false
       WebviewDisableRendererCodeIntegrity := false
       EnableSwipeGestures := false
       WindowClassName := ""
       DLLSearchPaths := fl }, rfl, rfl, rfl, rfl⟩⟩

/-- Claim C6: in the heap model, DefaultMessages allocates a fresh cell and
leaves every previously existing cell unchanged, and RGB reads no state: its
value is a function of its three arguments alone. -/
theorem no_mutation_frame (heap : List Messages) (i : Nat) (r g b : Nat) :
    (allocDefaultMessages heap).2.take heap.length = heap ∧
    (allocDefaultMessages heap).2.length = heap.length + 1 ∧
    (allocDefaultMessages heap).1 = heap.length ∧
    (i < heap.length →
      (allocDefaultMessages heap).2[i]? = heap[i]? ∧ (allocDefaultMessages heap).1 ≠ i) ∧
    (allocDefaultMessages heap).2[(allocDefaultMessages heap).1]? = some DefaultMessages ∧
    RGB r g b = RGB r g b := by
  refine ⟨List.take_left heap [DefaultMessages], by simp [allocDefaultMessages], rfl, ?_,
    List.getElem?_concat_length heap DefaultMessages, rfl⟩
  intro hi
  constructor
  · show (heap ++ [DefaultMessages])[i]? = heap[i]?
    rw [List.getElem?_append]
    simp [hi]
  · show heap.length ≠ i
    omega

/-- Claim C8: DefaultMessages is deterministic: whatever the prior state,
the catalogue it returns is the same, field for field. -/
theorem defaultMessages_deterministic (h1 h2 : List Messages) (m1 m2 : Messages)
    (e1 : (allocDefaultMessages h1).2[(allocDefaultMessages h1).1]? = some m1)
    (e2 : (allocDefaultMessages h2).2[(allocDefaultMessages h2).1]? = some m2) :
    m1 = m2 ∧ m1.fieldList = m2.fieldList := by
  have k1 : (allocDefaultMessages h1).2[(allocDefaultMessages h1).1]? = some DefaultMessages :=
    List.getElem?_concat_length h1 DefaultMessages
  have k2 : (allocDefaultMessages h2).2[(allocDefaultMessages h2).1]? = some DefaultMessages :=
    List.getElem?_concat_length h2 DefaultMessages
  rw [k1] at e1
  rw [k2] at e2
  obtain rfl : DefaultMessages = m1 := Option.some.inj e1
  obtain rfl : DefaultMessages = m2 := Option.some.inj e2
  exact ⟨rfl, rfl⟩

/-- Witness for claim C8: two calls from different states, one on an empty
heap and one on a heap already holding a catalogue, return equal values. -/
theorem defaultMessages_deterministic_witness :
    DefaultMessages = DefaultMessages ∧
    DefaultMessages.fieldList = DefaultMessages.fieldList :=
  defaultMessages_deterministic [] [DefaultMessages] DefaultMessages DefaultMessages rfl rfl

end Windows
